import Mathlib

/-!
# Verification of the token-based authentication core

Shallow embedding of the authentication subsystem (JWT issue / validate /
revoke, login rate limiting, and the Login / Logout / Register handlers)
of the user-management gRPC service, together with proofs of its stated
properties.

Modelling conventions:
- Time is `Int` seconds (Go `time.Time` compared at second granularity).
- A JWT token string is modelled by the inductive `Token`: a structurally
  well-formed JWT is determined by its claims, its declared signing
  algorithm and the key it was signed with; any other string is `garbage`.
  Distinct constructor arguments correspond to distinct token strings, so
  equality of `Token` models equality of token strings.
- The MongoDB collections (`users`, `invalidated_tokens`, `login_attempts`)
  are lists inside `DBState`; boolean fault flags model store operations
  failing with a driver error (anything other than `mongo.ErrNoDocuments`).
- External library calls that the core treats as oracles (Go
  `mail.ParseAddress`, bcrypt `CompareHashAndPassword` / hashing) are
  passed in as function parameters, exactly as the spec treats them
  (a pass/fail signal from an external collaborator).
-/

/-- Signing algorithm declared in a JWT header.  `HS256` is the HMAC method
the service signs with (`jwt.SigningMethodHS256`); `RS256` stands for any
non-HMAC method. -/
inductive SigAlg where
  | HS256
  | RS256
deriving DecidableEq, Repr

/-- Whether the algorithm is an HMAC method (`jwt.SigningMethodHMAC`). -/
def SigAlg.isHMAC : SigAlg → Bool
  | .HS256 => true
  | .RS256 => false

/-- `auth.JWTClaims`: custom `user_id`/`email` fields plus the registered
claims the service sets (`ExpiresAt`, `IssuedAt`, `NotBefore`, `Subject`). -/
structure JWTClaims where
  userID : String
  email : String
  expiresAt : Int
  issuedAt : Int
  notBefore : Int
  subject : String
deriving DecidableEq, Repr

/-- A token string.  `jwtTok claims alg key` is the well-formed JWT whose
payload is `claims`, whose header declares `alg`, and whose signature was
produced with `key`; `garbage raw` is any string that is not a well-formed
JWT. -/
inductive Token where
  | jwtTok (claims : JWTClaims) (alg : SigAlg) (key : String)
  | garbage (raw : String)
deriving DecidableEq, Repr

/-- Outcomes of `jwt.ParseWithClaims` that the service distinguishes. -/
inductive ParseErr where
  | malformed
  | unverifiable
  | signatureInvalid
  | expired
  | notYetValid
deriving DecidableEq, Repr

/-- `jwt.ParseWithClaims` with the service keyfunc.  `checkHMAC` is true for
the keyfunc used by `ValidateToken` (which rejects non-HMAC methods before
returning the secret) and false for the one used by `InvalidateToken`
(which returns the secret unconditionally; a non-HMAC token then still
fails signature verification against the byte-slice key).  Per jwt v5,
signature verification happens before claim validation, and the default
validator rejects a token iff `now` is not before `exp` (expired) or
`now` is before `nbf` (not yet valid). -/
def parseToken (checkHMAC : Bool) (secret : String) (now : Int) : Token → Except ParseErr JWTClaims
  | .garbage _ => .error .malformed
  | .jwtTok c alg key =>
    if checkHMAC && !alg.isHMAC then .error .unverifiable
    else if !(alg.isHMAC && key == secret) then .error .signatureInvalid
    else if c.expiresAt ≤ now then .error .expired
    else if now < c.notBefore then .error .notYetValid
    else .ok c

/-- `JWTService.GenerateToken`: builds claims with `exp = now + tokenTTL`,
`iat = nbf = now`, `sub = userID`, and signs them with HS256 under the
service secret. -/
def generateToken (secret : String) (ttl : Int) (now : Int) (userID email : String) : Token :=
  .jwtTok ⟨userID, email, now + ttl, now, now, userID⟩ .HS256 secret

/-- `models.User` (fields the auth core reads and writes). -/
structure User where
  id : String
  email : String
  password : String
  name : String
  createdAt : Int
  updatedAt : Int
  isActive : Bool
  isDeleted : Bool
deriving DecidableEq, Repr

/-- `models.InvalidatedToken`: a blacklist record for a token string. -/
structure InvalidatedToken where
  token : Token
  userID : String
  expiresAt : Int
  createdAt : Int
deriving DecidableEq, Repr

/-- `models.LoginAttempt`: one recorded login attempt. -/
structure LoginAttempt where
  email : String
  ipAddress : String
  timestamp : Int
  success : Bool
deriving DecidableEq, Repr

/-- The external store (`database.Database`): the three collections plus
fault flags modelling a store operation failing with a driver error
(anything other than "no documents"). -/
structure DBState where
  users : List User
  tokens : List InvalidatedToken
  attempts : List LoginAttempt
  tokensFindFails : Bool
  tokensInsertFails : Bool
  usersFindFails : Bool
  usersInsertFails : Bool
  attemptsCountFails : Bool
  attemptsInsertFails : Bool
deriving DecidableEq, Repr

/-- The blacklist lookup `db.Tokens.FindOne(ctx, bson.M{"token": tokenString})`
restricted to a healthy store: the first record whose token field equals the
given token string. -/
def findInvalidated (db : DBState) (t : Token) : Option InvalidatedToken :=
  db.tokens.find? (fun r => decide (r.token = t))

/-- Errors `JWTService.ValidateToken` can return: the three sentinel errors
(`ErrTokenBlacklisted`, `ErrTokenExpired`, `ErrInvalidToken`) and the
wrapped store error `fmt.Errorf("error checking token blacklist: %v", err)`. -/
inductive ValidateErr where
  | tokenBlacklisted
  | blacklistCheckFailure
  | tokenExpired
  | invalidToken
deriving DecidableEq, Repr

/-- `JWTService.ValidateToken`: (1) blacklist lookup — found means
`ErrTokenBlacklisted`, a store error other than no-documents is wrapped and
returned; (2) `jwt.ParseWithClaims` with the HMAC-checking keyfunc —
`errors.Is(err, jwt.ErrTokenExpired)` maps to `ErrTokenExpired`, any other
parse error to `ErrInvalidToken`; otherwise the claims are returned. -/
def validateToken (secret : String) (db : DBState) (now : Int) (t : Token) : Except ValidateErr JWTClaims :=
  if db.tokensFindFails then .error .blacklistCheckFailure
  else
    match findInvalidated db t with
    | some _ => .error .tokenBlacklisted
    | none =>
      match parseToken true secret now t with
      | .ok c => .ok c
      | .error .expired => .error .tokenExpired
      | .error _ => .error .invalidToken

/-- `primitive.ObjectIDFromHex` succeeds iff the string is 24 hex digits. -/
def isValidObjectIDHex (s : String) : Bool :=
  s.length == 24 && s.toList.all (fun c => c.isDigit || ('a' ≤ c && c ≤ 'f') || ('A' ≤ c && c ≤ 'F'))

/-- `db.Tokens.InsertOne`: fails on a store fault or when the unique index
on the `token` field is violated (a record for the same token string is
already present, per `database.createIndexes`). -/
def tokensInsertOne (db : DBState) (r : InvalidatedToken) : Option DBState :=
  if db.tokensInsertFails then none
  else if (findInvalidated db r.token).isSome then none
  else some { db with tokens := db.tokens ++ [r] }

/-- Errors `JWTService.InvalidateToken` can return: `"invalid user ID: %v"`
when `ObjectIDFromHex` fails, `"failed to invalidate token: %v"` when the
insert fails. -/
inductive InvalidateErr where
  | invalidUserID
  | insertFailure
deriving DecidableEq, Repr

/-- The `expiryTime` local of `JWTService.InvalidateToken`: the parsed
token's own expiry, or `now + tokenTTL` when `jwt.ParseWithClaims` returns
any error. -/
def invalidateExpiry (secret : String) (ttl : Int) (now : Int) (t : Token) : Int :=
  match parseToken false secret now t with
  | .ok c => c.expiresAt
  | .error _ => now + ttl

/-- `JWTService.InvalidateToken`: parses the token with the unconditional
keyfunc to recover its expiry — on any parse error the expiry falls back to
`now + tokenTTL`; converts `userID` from hex (error on failure); inserts the
`InvalidatedToken` record (error on insert failure). -/
def invalidateToken (secret : String) (ttl : Int) (db : DBState) (now : Int) (t : Token) (userID : String) : Except InvalidateErr DBState :=
  if !isValidObjectIDHex userID then .error .invalidUserID
  else
    match tokensInsertOne db ⟨t, userID, invalidateExpiry secret ttl now t, now⟩ with
    | some db1 => .ok db1
    | none => .error .insertFailure

/-- `JWTService.ExtractUserIDFromToken`: `ValidateToken` then the `user_id`
claim. -/
def extractUserIDFromToken (secret : String) (db : DBState) (now : Int) (t : Token) : Except ValidateErr String :=
  (validateToken secret db now t).map (fun c => c.userID)

/-- `utils.ValidationError` with `Error()` rendering `"field: message"`. -/
structure ValidationError where
  field : String
  message : String
deriving DecidableEq, Repr

/-- `ValidationError.Error()`. -/
def validationErrorString (e : ValidationError) : String :=
  e.field ++ ": " ++ e.message

/-- `utils.ValidateEmail`.  `emailOK` is the oracle for Go
`mail.ParseAddress` succeeding (an external-collaborator pass/fail signal).
Returns `none` when the email is accepted. -/
def validateEmail (emailOK : String → Bool) (email : String) : Option ValidationError :=
  if email.length = 0 then some ⟨"email", "email is required"⟩
  else if email.length > 128 then some ⟨"email", "email is too long"⟩
  else if emailOK email then none
  else some ⟨"email", "invalid email format"⟩

/-- The special-character class of `utils.hasSpecial`. -/
def isPasswordSpecialChar (c : Char) : Bool :=
  ['!', '@', '#', '$', '%', '^', '&', '*', '(', ')', '_', '+', '-', '=', '[', ']',
   Char.ofNat 123, Char.ofNat 125, ';', '\'', ':', '\"', '\\', '|', ',', '.', '<', '>', '/', '?'].contains c

/-- `utils.ValidatePassword`: length bounds then the character-class
requirements, joined into one message when any is missing. -/
def validatePassword (password : String) : Option ValidationError :=
  if password.length = 0 then some ⟨"password", "password is required"⟩
  else if password.length < 8 then some ⟨"password", "password must be at least 8 characters"⟩
  else if password.length > 128 then some ⟨"password", "password must be less than 128 characters"⟩
  else
    let reqs : List String :=
      (if password.length ≥ 8 then [] else ["at least 8 characters"]) ++
      (if password.toList.any Char.isUpper then [] else ["at least one uppercase letter"]) ++
      (if password.toList.any Char.isLower then [] else ["at least one lowercase letter"]) ++
      (if password.toList.any Char.isDigit then [] else ["at least one number"]) ++
      (if password.toList.any isPasswordSpecialChar then [] else ["at least one special character"])
    if reqs.isEmpty then none
    else some ⟨"password", "password must contain " ++ String.intercalate ", " reqs⟩

/-- `utils.ValidateName`: nonempty, at most 50 characters, letters / space /
hyphen / apostrophe only. -/
def validateName (name fieldName : String) : Option ValidationError :=
  if name.length = 0 then some ⟨fieldName, fieldName ++ " is required"⟩
  else if name.length > 50 then some ⟨fieldName, fieldName ++ " is too long"⟩
  else if name.toList.all (fun c => c.isAlpha || c == ' ' || c == '-' || c == '\'') then none
  else some ⟨fieldName, fieldName ++ " contains invalid characters"⟩

/-- The count inside `RateLimiter.CheckRateLimit`: records of this
(email, ip) pair with `success = false` and `timestamp >= now - 1 minute`. -/
def failedRecentCount (db : DBState) (now : Int) (email ipAddress : String) : Nat :=
  (db.attempts.filter (fun a =>
    decide (a.email = email) && decide (a.ipAddress = ipAddress) &&
    a.success == false && decide (now - 60 ≤ a.timestamp))).length

/-- `RateLimiter.CheckRateLimit`: `CountDocuments` over the filter above
(a read-only operation — the state is returned unchanged), error on a store
fault, otherwise allowed iff the count is below 5. -/
def checkRateLimit (db : DBState) (now : Int) (email ipAddress : String) : Except String Bool × DBState :=
  if db.attemptsCountFails then (.error "failed to check rate limit", db)
  else (.ok (failedRecentCount db now email ipAddress < 5), db)

/-- `RateLimiter.RecordLoginAttempt`: appends one attempt document.  Its
error return is discarded by every caller (`AuthService.Login`), so on an
insert fault the state is simply unchanged. -/
def recordLoginAttempt (db : DBState) (now : Int) (email ipAddress : String) (success : Bool) : DBState :=
  if db.attemptsInsertFails then db
  else { db with attempts := db.attempts ++ [⟨email, ipAddress, now, success⟩] }

/-- gRPC status codes used by the auth handlers. -/
inductive GrpcCode where
  | invalidArgument
  | resourceExhausted
  | notFound
  | unauthenticated
  | permissionDenied
  | alreadyExists
  | internal
deriving DecidableEq, Repr

/-- A gRPC error: status code plus message string. -/
structure GrpcError where
  code : GrpcCode
  message : String
deriving DecidableEq, Repr

/-- Successful `LoginResponse` payload. -/
structure LoginOk where
  token : Token
  user : User
  message : String
deriving DecidableEq, Repr

/-- Outcome of `db.Users.FindOne` in `Login`. -/
inductive FindUserResult where
  | found (u : User)
  | noDocuments
  | findError
deriving DecidableEq, Repr

/-- The credential lookup in `Login`:
`FindOne(bson.M{"email": email, "is_deleted": false})`. -/
def usersFindOneLogin (db : DBState) (email : String) : FindUserResult :=
  if db.usersFindFails then .findError
  else
    match db.users.find? (fun u => decide (u.email = email) && u.isDeleted == false) with
    | some u => .found u
    | none => .noDocuments

/-- `AuthService.Login`.  `emailOK` is the `mail.ParseAddress` oracle and
`pwVerify` the bcrypt `utils.CheckPasswordHash` oracle.  Returns the gRPC
outcome together with the store state after the call. -/
def login (emailOK : String → Bool) (pwVerify : String → String → Bool)
    (secret : String) (ttl : Int) (db : DBState) (now : Int)
    (email password clientIP : String) : Except GrpcError LoginOk × DBState :=
  match validateEmail emailOK email with
  | some e => (.error ⟨.invalidArgument, validationErrorString e⟩, db)
  | none =>
    if password = "" then (.error ⟨.invalidArgument, "password is required"⟩, db)
    else
      match checkRateLimit db now email clientIP with
      | (.error _, _) => (.error ⟨.internal, "failed to check rate limit"⟩, db)
      | (.ok allowed, _) =>
        if !allowed then
          (.error ⟨.resourceExhausted, "too many login attempts, please try again later"⟩, db)
        else
          match usersFindOneLogin db email with
          | .findError =>
            (.error ⟨.internal, "failed to find user"⟩,
              recordLoginAttempt db now email clientIP false)
          | .noDocuments =>
            (.error ⟨.notFound, "invalid email or password"⟩,
              recordLoginAttempt db now email clientIP false)
          | .found u =>
            if !pwVerify password u.password then
              (.error ⟨.unauthenticated, "invalid email or password"⟩,
                recordLoginAttempt db now email clientIP false)
            else if !u.isActive then
              (.error ⟨.permissionDenied, "account is deactivated/deleted"⟩, db)
            else
              (.ok ⟨generateToken secret ttl now u.id u.email, u, "Login success"⟩,
                recordLoginAttempt db now email clientIP true)

/-- `AuthService.Logout`: empty token is `InvalidArgument`; any
`ExtractUserIDFromToken` error becomes `Unauthenticated "invalid token"`;
an `InvalidateToken` error becomes `Internal "failed to invalidate token"`. -/
def logout (secret : String) (ttl : Int) (db : DBState) (now : Int) (t : Token) : Except GrpcError Unit × DBState :=
  if t = Token.garbage "" then (.error ⟨.invalidArgument, "token is required"⟩, db)
  else
    match extractUserIDFromToken secret db now t with
    | .error _ => (.error ⟨.unauthenticated, "invalid token"⟩, db)
    | .ok userID =>
      match invalidateToken secret ttl db now t userID with
      | .error _ => (.error ⟨.internal, "failed to invalidate token"⟩, db)
      | .ok db1 => (.ok (), db1)

/-- `utils.SanitizeString` (Go `strings.TrimSpace`): strips leading and
trailing whitespace. -/
def sanitizeString (s : String) : String :=
  ⟨((s.data.dropWhile Char.isWhitespace).reverse.dropWhile Char.isWhitespace).reverse⟩

/-- `AuthService.Register`.  `hash` is the bcrypt `utils.HashPassword`
oracle and `newID` the ObjectID assigned by the insert.  The duplicate
check is `FindOne(bson.M{"email": email})` — with no `is_deleted` filter. -/
def register (emailOK : String → Bool) (hash : String → String) (newID : String)
    (db : DBState) (now : Int) (email password name : String) : Except GrpcError User × DBState :=
  let email := sanitizeString email
  let name := sanitizeString name
  match validateEmail emailOK email with
  | some e => (.error ⟨.invalidArgument, validationErrorString e⟩, db)
  | none =>
    match validatePassword password with
    | some e => (.error ⟨.invalidArgument, validationErrorString e⟩, db)
    | none =>
      match validateName name "name" with
      | some e => (.error ⟨.invalidArgument, validationErrorString e⟩, db)
      | none =>
        if db.usersFindFails then (.error ⟨.internal, "failed to check existing user"⟩, db)
        else
          match db.users.find? (fun u => decide (u.email = email)) with
          | some _ => (.error ⟨.alreadyExists, "email already exists"⟩, db)
          | none =>
            let u : User := ⟨newID, email, hash password, name, now, now, true, false⟩
            if db.usersInsertFails then (.error ⟨.internal, "failed to create user"⟩, db)
            else (.ok u, { db with users := db.users ++ [u] })

/-! ## Helper lemmas -/

/-- Equality of `Except` values is decidable when it is on both sides. -/
instance {ε α : Type} [DecidableEq ε] [DecidableEq α] : DecidableEq (Except ε α) := fun x y =>
  match x, y with
  | .ok a, .ok b => if h : a = b then isTrue (by rw [h]) else isFalse (by simp [h])
  | .error e, .error f => if h : e = f then isTrue (by rw [h]) else isFalse (by simp [h])
  | .ok _, .error _ => isFalse (by simp)
  | .error _, .ok _ => isFalse (by simp)

/-- `find?` skips a prefix in which nothing satisfies the predicate. -/
theorem find?_append_of_none {α : Type} (p : α → Bool) (l1 l2 : List α)
    (h : l1.find? p = none) : (l1 ++ l2).find? p = l2.find? p := by
  simp [List.find?_append, h]

/-- A successful `tokensInsertOne` appends exactly the given record, and can
only happen without an insert fault and with no prior record for the same
token string (the unique index on `token`). -/
theorem tokensInsertOne_ok (db : DBState) (r : InvalidatedToken) (db1 : DBState)
    (h : tokensInsertOne db r = some db1) :
    db1 = { db with tokens := db.tokens ++ [r] } ∧
    db.tokensInsertFails = false ∧ findInvalidated db r.token = none := by
  unfold tokensInsertOne at h
  split at h
  · exact absurd h (by simp)
  · split at h
    · exact absurd h (by simp)
    · rename_i hf hd
      injection h with h
      refine ⟨h.symm, by simpa using hf, ?_⟩
      cases hx : findInvalidated db r.token
      · rfl
      · rw [hx] at hd; simp at hd

/-- If the blacklist store is healthy and a record for the token exists,
`ValidateToken` stops at the blacklist stage with `ErrTokenBlacklisted`. -/
theorem validateToken_blacklisted_of_found (secret : String) (db : DBState) (now : Int)
    (t : Token) (r : InvalidatedToken)
    (h1 : db.tokensFindFails = false) (h2 : findInvalidated db t = some r) :
    validateToken secret db now t = .error .tokenBlacklisted := by
  simp [validateToken, h1, h2]

/-- A successful `invalidateToken` is a successful insert of a record whose
token field is the given token string. -/
theorem invalidateToken_ok_inv (secret : String) (ttl : Int) (db : DBState) (now : Int)
    (t : Token) (userID : String) (db1 : DBState)
    (h : invalidateToken secret ttl db now t userID = .ok db1) :
    tokensInsertOne db ⟨t, userID, invalidateExpiry secret ttl now t, now⟩ = some db1 := by
  unfold invalidateToken at h
  by_cases hid : isValidObjectIDHex userID
  · simp only [hid, Bool.not_true, Bool.false_eq_true, if_false] at h
    cases hins : tokensInsertOne db ⟨t, userID, invalidateExpiry secret ttl now t, now⟩
    · rw [hins] at h; simp at h
    · rw [hins] at h; simp only [Except.ok.injEq] at h; rw [h]
  · simp [hid] at h

/-! ## Claims -/

/-- **C1.** After `InvalidateToken(t, u)` succeeds (so a blacklist record for
`t` is in the store), and while the blacklist store stays healthy, every
subsequent `ValidateToken(t)` — at any time — returns `ErrTokenBlacklisted`,
whatever the token's signature or expiry status. -/
theorem c1_revocation_is_permanent (secret : String) (ttl : Int) (db db1 : DBState)
    (now : Int) (t : Token) (userID : String)
    (hstore : db.tokensFindFails = false)
    (hinv : invalidateToken secret ttl db now t userID = .ok db1) :
    ∀ now2 : Int, validateToken secret db1 now2 t = .error .tokenBlacklisted := by
  intro now2
  have hins := invalidateToken_ok_inv secret ttl db now t userID db1 hinv
  obtain ⟨hdb1, _, hnone⟩ :=
    tokensInsertOne_ok db ⟨t, userID, invalidateExpiry secret ttl now t, now⟩ db1 hins
  subst hdb1
  apply validateToken_blacklisted_of_found secret _ now2 t
    ⟨t, userID, invalidateExpiry secret ttl now t, now⟩
  · simpa using hstore
  · unfold findInvalidated at hnone ⊢
    rw [find?_append_of_none _ _ _ hnone]
    simp [List.find?]

/-- Witness for C1 at concrete inputs: revoking a garbage token string then
validating it. -/
theorem c1_revocation_is_permanent_witness :
    validateToken "k"
      ⟨[], [⟨Token.garbage "x", "0123456789abcdef01234567", 100, 0⟩], [],
        false, false, false, false, false, false⟩ 50 (Token.garbage "x") =
      .error .tokenBlacklisted :=
  c1_revocation_is_permanent "k" 100
    ⟨[], [], [], false, false, false, false, false, false⟩ _ 0
    (Token.garbage "x") "0123456789abcdef01234567" rfl (by decide) 50

/-- **C2.** Round-trip: a token issued by `GenerateToken(id, email)` at time
`t0`, validated at any time `t1` in `[t0, t0 + TTL)` with a healthy store
and no revocation record for it, validates successfully and the returned
claims' subject equals `id`. -/
theorem c2_issue_validate_roundtrip (secret : String) (ttl : Int) (db : DBState)
    (t0 t1 : Int) (userID email : String)
    (hstore : db.tokensFindFails = false)
    (hrev : findInvalidated db (generateToken secret ttl t0 userID email) = none)
    (h0 : t0 ≤ t1) (h1 : t1 < t0 + ttl) :
    ∃ c, validateToken secret db t1 (generateToken secret ttl t0 userID email) = .ok c ∧
      c.subject = userID := by
  refine ⟨⟨userID, email, t0 + ttl, t0, t0, userID⟩, ?_, rfl⟩
  have hexp : ¬ (t0 + ttl ≤ t1) := by omega
  have hnbf : ¬ (t1 < t0) := by omega
  simp only [generateToken] at hrev
  simp [validateToken, hstore, hrev, generateToken, parseToken, SigAlg.isHMAC, hexp, hnbf]

/-- Witness for C2 at concrete inputs. -/
theorem c2_issue_validate_roundtrip_witness :
    ∃ c, validateToken "k" ⟨[], [], [], false, false, false, false, false, false⟩ 10
      (generateToken "k" 3600 0 "u1" "a@b.c") = .ok c ∧ c.subject = "u1" :=
  c2_issue_validate_roundtrip "k" 3600 ⟨[], [], [], false, false, false, false, false, false⟩
    0 10 "u1" "a@b.c" rfl rfl (by decide) (by decide)

/-- **C3.** The blacklist lookup comes first in `ValidateToken`: for any
token whatsoever (regardless of whether it would parse, verify, or be
expired), the presence of a revocation record for its exact token string
makes `ValidateToken` return `ErrTokenBlacklisted`, never `ErrInvalidToken`
or `ErrTokenExpired`. -/
theorem c3_blacklist_lookup_short_circuits (secret : String) (db : DBState) (now : Int)
    (t : Token) (r : InvalidatedToken)
    (hstore : db.tokensFindFails = false)
    (hrec : findInvalidated db t = some r) :
    validateToken secret db now t = .error .tokenBlacklisted ∧
    validateToken secret db now t ≠ .error .invalidToken ∧
    validateToken secret db now t ≠ .error .tokenExpired := by
  have h := validateToken_blacklisted_of_found secret db now t r hstore hrec
  exact ⟨h, by rw [h]; simp, by rw [h]; simp⟩

/-- Witness for C3 at a concrete input: a revoked token that is also expired
and carries a wrong signature is still reported as blacklisted. -/
theorem c3_blacklist_lookup_short_circuits_witness :
    validateToken "k"
      ⟨[], [⟨Token.jwtTok ⟨"u", "e", 5, 0, 0, "u"⟩ .HS256 "wrong", "u", 5, 0⟩], [],
        false, false, false, false, false, false⟩ 50
      (Token.jwtTok ⟨"u", "e", 5, 0, 0, "u"⟩ .HS256 "wrong") =
      .error .tokenBlacklisted :=
  (c3_blacklist_lookup_short_circuits "k"
    ⟨[], [⟨Token.jwtTok ⟨"u", "e", 5, 0, 0, "u"⟩ .HS256 "wrong", "u", 5, 0⟩], [],
      false, false, false, false, false, false⟩ 50
    (Token.jwtTok ⟨"u", "e", 5, 0, 0, "u"⟩ .HS256 "wrong")
    ⟨Token.jwtTok ⟨"u", "e", 5, 0, 0, "u"⟩ .HS256 "wrong", "u", 5, 0⟩ rfl (by decide)).1

/-- **C4.** `CheckRateLimit(identity, origin)` performs a pure count and
writes nothing: with a healthy store it returns the state unchanged, and it
allows the login iff the number of attempt records with exactly this
(email, ip) pair, `success = false`, and `timestamp ≥ now - 60s` is
strictly below 5 — successful attempts and attempts older than 60 seconds
are excluded by the filter. -/
theorem c4_check_rate_limit_counts_recent_failures (db : DBState) (now : Int)
    (email ip : String) (h : db.attemptsCountFails = false) :
    checkRateLimit db now email ip =
      (.ok (decide ((db.attempts.countP (fun a =>
          decide (a.email = email) && decide (a.ipAddress = ip) &&
          a.success == false && decide (now - 60 ≤ a.timestamp))) < 5)), db) := by
  simp [checkRateLimit, h, failedRecentCount, List.countP_eq_length_filter]

/-- Witness for C4 at concrete inputs: five recent failures block the next
check, while old or successful attempts do not count. -/
theorem c4_check_rate_limit_counts_recent_failures_witness :
    checkRateLimit
      ⟨[], [],
        [⟨"a@x.com", "ip", 100, false⟩, ⟨"a@x.com", "ip", 90, false⟩,
         ⟨"a@x.com", "ip", 80, false⟩, ⟨"a@x.com", "ip", 70, false⟩,
         ⟨"a@x.com", "ip", 60, false⟩, ⟨"a@x.com", "ip", 95, true⟩,
         ⟨"a@x.com", "ip", 1, false⟩, ⟨"b@x.com", "ip", 100, false⟩],
        false, false, false, false, false, false⟩ 100 "a@x.com" "ip" =
      (.ok false,
       ⟨[], [],
        [⟨"a@x.com", "ip", 100, false⟩, ⟨"a@x.com", "ip", 90, false⟩,
         ⟨"a@x.com", "ip", 80, false⟩, ⟨"a@x.com", "ip", 70, false⟩,
         ⟨"a@x.com", "ip", 60, false⟩, ⟨"a@x.com", "ip", 95, true⟩,
         ⟨"a@x.com", "ip", 1, false⟩, ⟨"b@x.com", "ip", 100, false⟩],
        false, false, false, false, false, false⟩) := by
  have h := c4_check_rate_limit_counts_recent_failures
    ⟨[], [],
      [⟨"a@x.com", "ip", 100, false⟩, ⟨"a@x.com", "ip", 90, false⟩,
       ⟨"a@x.com", "ip", 80, false⟩, ⟨"a@x.com", "ip", 70, false⟩,
       ⟨"a@x.com", "ip", 60, false⟩, ⟨"a@x.com", "ip", 95, true⟩,
       ⟨"a@x.com", "ip", 1, false⟩, ⟨"b@x.com", "ip", 100, false⟩],
      false, false, false, false, false, false⟩ 100 "a@x.com" "ip" rfl
  rw [h]
  decide

/-- **C5.** When input validation passes but the rate limiter reports
not-allowed, `Login` fails with `ResourceExhausted` ("too many login
attempts") and the store is returned unchanged: no attempt record is
written, and the outcome does not depend on the credential store at all. -/
theorem c5_rate_limited_login_changes_nothing (emailOK : String → Bool)
    (pwVerify : String → String → Bool) (secret : String) (ttl : Int)
    (db : DBState) (now : Int) (email password ip : String)
    (hemail : validateEmail emailOK email = none)
    (hpw : password ≠ "")
    (hcount : db.attemptsCountFails = false)
    (hlim : ¬ failedRecentCount db now email ip < 5) :
    login emailOK pwVerify secret ttl db now email password ip =
      (.error ⟨.resourceExhausted, "too many login attempts, please try again later"⟩, db) := by
  simp [login, hemail, hpw, checkRateLimit, hcount, hlim]

/-- Witness for C5 at concrete inputs: five recent failures on the pair. -/
theorem c5_rate_limited_login_changes_nothing_witness :
    login (fun _ => true) (fun _ _ => true) "k" 3600
      ⟨[], [],
        [⟨"a@x.com", "ip", 100, false⟩, ⟨"a@x.com", "ip", 99, false⟩,
         ⟨"a@x.com", "ip", 98, false⟩, ⟨"a@x.com", "ip", 97, false⟩,
         ⟨"a@x.com", "ip", 96, false⟩],
        false, false, false, false, false, false⟩ 100 "a@x.com" "pw" "ip" =
      (.error ⟨.resourceExhausted, "too many login attempts, please try again later"⟩,
       ⟨[], [],
        [⟨"a@x.com", "ip", 100, false⟩, ⟨"a@x.com", "ip", 99, false⟩,
         ⟨"a@x.com", "ip", 98, false⟩, ⟨"a@x.com", "ip", 97, false⟩,
         ⟨"a@x.com", "ip", 96, false⟩],
        false, false, false, false, false, false⟩) :=
  c5_rate_limited_login_changes_nothing (fun _ => true) (fun _ _ => true) "k" 3600
    ⟨[], [],
      [⟨"a@x.com", "ip", 100, false⟩, ⟨"a@x.com", "ip", 99, false⟩,
       ⟨"a@x.com", "ip", 98, false⟩, ⟨"a@x.com", "ip", 97, false⟩,
       ⟨"a@x.com", "ip", 96, false⟩],
      false, false, false, false, false, false⟩ 100 "a@x.com" "pw" "ip"
    rfl (by decide) rfl (by decide)

/-- **C6.** Identity-enumeration avoidance: a `Login` against a store with no
matching credential and a `Login` against a store whose credential exists but
whose secret verification fails produce errors with the identical message
"invalid email or password" (only the status codes differ), so the message
text does not reveal whether the account exists. -/
theorem c6_enumeration_messages_identical (emailOK : String → Bool)
    (pwVerify : String → String → Bool) (secret : String) (ttl : Int)
    (dbA dbB : DBState) (now : Int) (email password ip : String) (u : User)
    (hemail : validateEmail emailOK email = none) (hpw : password ≠ "")
    (hcA : dbA.attemptsCountFails = false) (hlimA : failedRecentCount dbA now email ip < 5)
    (hcB : dbB.attemptsCountFails = false) (hlimB : failedRecentCount dbB now email ip < 5)
    (hmiss : usersFindOneLogin dbA email = .noDocuments)
    (hfound : usersFindOneLogin dbB email = .found u)
    (hwrong : pwVerify password u.password = false) :
    (login emailOK pwVerify secret ttl dbA now email password ip).1 =
      .error ⟨.notFound, "invalid email or password"⟩ ∧
    (login emailOK pwVerify secret ttl dbB now email password ip).1 =
      .error ⟨.unauthenticated, "invalid email or password"⟩ ∧
    (GrpcError.mk .notFound "invalid email or password").message =
      (GrpcError.mk .unauthenticated "invalid email or password").message := by
  refine ⟨?_, ?_, rfl⟩
  · simp [login, hemail, hpw, checkRateLimit, hcA, hlimA, hmiss]
  · simp [login, hemail, hpw, checkRateLimit, hcB, hlimB, hfound, hwrong]

/-- Witness for C6 at concrete inputs: empty store versus a store holding the
account with a non-matching secret. -/
theorem c6_enumeration_messages_identical_witness :
    (login (fun _ => true) (fun _ _ => false) "k" 3600
      ⟨[], [], [], false, false, false, false, false, false⟩ 0 "a@x.com" "pw" "ip").1 =
      .error ⟨.notFound, "invalid email or password"⟩ ∧
    (login (fun _ => true) (fun _ _ => false) "k" 3600
      ⟨[⟨"id1", "a@x.com", "h", "Alice", 0, 0, true, false⟩], [], [],
        false, false, false, false, false, false⟩ 0 "a@x.com" "pw" "ip").1 =
      .error ⟨.unauthenticated, "invalid email or password"⟩ := by
  have h := c6_enumeration_messages_identical (fun _ => true) (fun _ _ => false) "k" 3600
    ⟨[], [], [], false, false, false, false, false, false⟩
    ⟨[⟨"id1", "a@x.com", "h", "Alice", 0, 0, true, false⟩], [], [],
      false, false, false, false, false, false⟩ 0 "a@x.com" "pw" "ip"
    ⟨"id1", "a@x.com", "h", "Alice", 0, 0, true, false⟩
    rfl (by decide) rfl (by decide) rfl (by decide) (by decide) (by decide) rfl
  exact ⟨h.1, h.2.1⟩

/-- **C7.** `InvalidateToken` behavior: (1) when the token parses, the
inserted revocation record carries the token's own expiry; (2) when parsing
fails, the record's expiry is `now + TTL`; (3) a user ID that is not a valid
24-hex-digit ObjectID fails with the invalid-user-ID error; (4) a failing
store insert fails with the revocation-failure error. -/
theorem c7_invalidate_token_behavior :
    (∀ (secret : String) (ttl : Int) (db : DBState) (now : Int) (t : Token)
        (userID : String) (c : JWTClaims),
      parseToken false secret now t = .ok c →
      isValidObjectIDHex userID = true →
      db.tokensInsertFails = false →
      findInvalidated db t = none →
      invalidateToken secret ttl db now t userID =
        .ok { db with tokens := db.tokens ++ [⟨t, userID, c.expiresAt, now⟩] }) ∧
    (∀ (secret : String) (ttl : Int) (db : DBState) (now : Int) (t : Token)
        (userID : String) (e : ParseErr),
      parseToken false secret now t = .error e →
      isValidObjectIDHex userID = true →
      db.tokensInsertFails = false →
      findInvalidated db t = none →
      invalidateToken secret ttl db now t userID =
        .ok { db with tokens := db.tokens ++ [⟨t, userID, now + ttl, now⟩] }) ∧
    (∀ (secret : String) (ttl : Int) (db : DBState) (now : Int) (t : Token)
        (userID : String),
      isValidObjectIDHex userID = false →
      invalidateToken secret ttl db now t userID = .error .invalidUserID) ∧
    (∀ (secret : String) (ttl : Int) (db : DBState) (now : Int) (t : Token)
        (userID : String),
      isValidObjectIDHex userID = true →
      db.tokensInsertFails = true →
      invalidateToken secret ttl db now t userID = .error .insertFailure) := by
  refine ⟨?_, ?_, ?_, ?_⟩
  · intro secret ttl db now t userID c hparse hid hfault hnone
    simp [invalidateToken, hid, tokensInsertOne, hfault, hnone, invalidateExpiry, hparse]
  · intro secret ttl db now t userID e hparse hid hfault hnone
    simp [invalidateToken, hid, tokensInsertOne, hfault, hnone, invalidateExpiry, hparse]
  · intro secret ttl db now t userID hid
    simp [invalidateToken, hid]
  · intro secret ttl db now t userID hid hfault
    simp [invalidateToken, hid, tokensInsertOne, hfault]

/-- Witness for C7 at concrete inputs, one per case: a parseable token, a
garbage token, a malformed user ID, and a failing insert. -/
theorem c7_invalidate_token_behavior_witness :
    invalidateToken "k" 100 ⟨[], [], [], false, false, false, false, false, false⟩ 0
      (Token.jwtTok ⟨"u", "e", 500, 0, 0, "u"⟩ .HS256 "k") "0123456789abcdef01234567" =
      .ok ⟨[], [⟨Token.jwtTok ⟨"u", "e", 500, 0, 0, "u"⟩ .HS256 "k",
        "0123456789abcdef01234567", 500, 0⟩], [], false, false, false, false, false, false⟩ ∧
    invalidateToken "k" 100 ⟨[], [], [], false, false, false, false, false, false⟩ 0
      (Token.garbage "x") "0123456789abcdef01234567" =
      .ok ⟨[], [⟨Token.garbage "x", "0123456789abcdef01234567", 100, 0⟩], [],
        false, false, false, false, false, false⟩ ∧
    invalidateToken "k" 100 ⟨[], [], [], false, false, false, false, false, false⟩ 0
      (Token.garbage "x") "zz" = .error .invalidUserID ∧
    invalidateToken "k" 100 ⟨[], [], [], false, true, false, false, false, false⟩ 0
      (Token.garbage "x") "0123456789abcdef01234567" = .error .insertFailure := by
  refine ⟨?_, ?_, ?_, ?_⟩
  · exact c7_invalidate_token_behavior.1 "k" 100
      ⟨[], [], [], false, false, false, false, false, false⟩ 0
      (Token.jwtTok ⟨"u", "e", 500, 0, 0, "u"⟩ .HS256 "k") "0123456789abcdef01234567"
      ⟨"u", "e", 500, 0, 0, "u"⟩ (by decide) (by decide) rfl rfl
  · exact c7_invalidate_token_behavior.2.1 "k" 100
      ⟨[], [], [], false, false, false, false, false, false⟩ 0
      (Token.garbage "x") "0123456789abcdef01234567" .malformed (by decide) (by decide) rfl rfl
  · exact c7_invalidate_token_behavior.2.2.1 "k" 100
      ⟨[], [], [], false, false, false, false, false, false⟩ 0
      (Token.garbage "x") "zz" (by decide)
  · exact c7_invalidate_token_behavior.2.2.2 "k" 100
      ⟨[], [], [], false, true, false, false, false, false⟩ 0
      (Token.garbage "x") "0123456789abcdef01234567" (by decide) rfl

/-- **C8 counterexample.** The claim "every Login call that reaches the
rate-limit check appends exactly one AttemptRecord" is false: a login with
the correct secret for a deactivated account passes the rate-limit check,
fails with `PermissionDenied`, and appends no attempt record at all (the
attempt store stays empty). -/
theorem c8_counterexample :
    login (fun _ => true) (fun _ _ => true) "k" 3600
      ⟨[⟨"id1", "a@x.com", "h", "Alice", 0, 0, false, false⟩], [], [],
        false, false, false, false, false, false⟩ 0 "a@x.com" "pw" "ip" =
      (.error ⟨.permissionDenied, "account is deactivated/deleted"⟩,
       ⟨[⟨"id1", "a@x.com", "h", "Alice", 0, 0, false, false⟩], [], [],
        false, false, false, false, false, false⟩) ∧
    (login (fun _ => true) (fun _ _ => true) "k" 3600
      ⟨[⟨"id1", "a@x.com", "h", "Alice", 0, 0, false, false⟩], [], [],
        false, false, false, false, false, false⟩ 0 "a@x.com" "pw" "ip").2.attempts = [] := by
  decide

/-- **C8 (amended).** An attempt record is appended exactly on the paths that
reach a credential verdict: store miss, store lookup error, and wrong secret
each append one failed record; full success appends one successful record;
a login rejected by the rate limiter or rejected because the account is
inactive appends nothing. -/
theorem c8_attempt_recording_paths :
    (∀ (emailOK : String → Bool) (pwVerify : String → String → Bool) (secret : String)
        (ttl : Int) (db : DBState) (now : Int) (email password ip : String),
      validateEmail emailOK email = none → password ≠ "" →
      db.attemptsCountFails = false → failedRecentCount db now email ip < 5 →
      db.attemptsInsertFails = false →
      usersFindOneLogin db email = .noDocuments →
      (login emailOK pwVerify secret ttl db now email password ip).2 =
        { db with attempts := db.attempts ++ [⟨email, ip, now, false⟩] }) ∧
    (∀ (emailOK : String → Bool) (pwVerify : String → String → Bool) (secret : String)
        (ttl : Int) (db : DBState) (now : Int) (email password ip : String),
      validateEmail emailOK email = none → password ≠ "" →
      db.attemptsCountFails = false → failedRecentCount db now email ip < 5 →
      db.attemptsInsertFails = false →
      usersFindOneLogin db email = .findError →
      (login emailOK pwVerify secret ttl db now email password ip).2 =
        { db with attempts := db.attempts ++ [⟨email, ip, now, false⟩] }) ∧
    (∀ (emailOK : String → Bool) (pwVerify : String → String → Bool) (secret : String)
        (ttl : Int) (db : DBState) (now : Int) (email password ip : String) (u : User),
      validateEmail emailOK email = none → password ≠ "" →
      db.attemptsCountFails = false → failedRecentCount db now email ip < 5 →
      db.attemptsInsertFails = false →
      usersFindOneLogin db email = .found u →
      pwVerify password u.password = false →
      (login emailOK pwVerify secret ttl db now email password ip).2 =
        { db with attempts := db.attempts ++ [⟨email, ip, now, false⟩] }) ∧
    (∀ (emailOK : String → Bool) (pwVerify : String → String → Bool) (secret : String)
        (ttl : Int) (db : DBState) (now : Int) (email password ip : String) (u : User),
      validateEmail emailOK email = none → password ≠ "" →
      db.attemptsCountFails = false → failedRecentCount db now email ip < 5 →
      db.attemptsInsertFails = false →
      usersFindOneLogin db email = .found u →
      pwVerify password u.password = true → u.isActive = true →
      (login emailOK pwVerify secret ttl db now email password ip).2 =
        { db with attempts := db.attempts ++ [⟨email, ip, now, true⟩] }) ∧
    (∀ (emailOK : String → Bool) (pwVerify : String → String → Bool) (secret : String)
        (ttl : Int) (db : DBState) (now : Int) (email password ip : String),
      validateEmail emailOK email = none → password ≠ "" →
      db.attemptsCountFails = false → ¬ failedRecentCount db now email ip < 5 →
      (login emailOK pwVerify secret ttl db now email password ip).2 = db) ∧
    (∀ (emailOK : String → Bool) (pwVerify : String → String → Bool) (secret : String)
        (ttl : Int) (db : DBState) (now : Int) (email password ip : String) (u : User),
      validateEmail emailOK email = none → password ≠ "" →
      db.attemptsCountFails = false → failedRecentCount db now email ip < 5 →
      usersFindOneLogin db email = .found u →
      pwVerify password u.password = true → u.isActive = false →
      (login emailOK pwVerify secret ttl db now email password ip).2 = db) := by
  refine ⟨?_, ?_, ?_, ?_, ?_, ?_⟩
  · intro emailOK pwVerify secret ttl db now email password ip
      hemail hpw hcount hlim hins hmiss
    simp [login, hemail, hpw, checkRateLimit, hcount, hlim, hmiss, recordLoginAttempt, hins]
  · intro emailOK pwVerify secret ttl db now email password ip
      hemail hpw hcount hlim hins herr
    simp [login, hemail, hpw, checkRateLimit, hcount, hlim, herr, recordLoginAttempt, hins]
  · intro emailOK pwVerify secret ttl db now email password ip u
      hemail hpw hcount hlim hins hfound hwrong
    simp [login, hemail, hpw, checkRateLimit, hcount, hlim, hfound, hwrong,
      recordLoginAttempt, hins]
  · intro emailOK pwVerify secret ttl db now email password ip u
      hemail hpw hcount hlim hins hfound hright hactive
    simp [login, hemail, hpw, checkRateLimit, hcount, hlim, hfound, hright, hactive,
      recordLoginAttempt, hins]
  · intro emailOK pwVerify secret ttl db now email password ip
      hemail hpw hcount hlim
    simp [login, hemail, hpw, checkRateLimit, hcount, hlim]
  · intro emailOK pwVerify secret ttl db now email password ip u
      hemail hpw hcount hlim hfound hright hinactive
    simp [login, hemail, hpw, checkRateLimit, hcount, hlim, hfound, hright, hinactive]

/-- Witness for the amended C8 at concrete inputs, one per path. -/
theorem c8_attempt_recording_paths_witness :
    (login (fun _ => true) (fun _ _ => false) "k" 3600
      ⟨[], [], [], false, false, false, false, false, false⟩ 0 "a@x.com" "pw" "ip").2 =
      ⟨[], [], [⟨"a@x.com", "ip", 0, false⟩], false, false, false, false, false, false⟩ ∧
    (login (fun _ => true) (fun _ _ => false) "k" 3600
      ⟨[], [], [], false, false, true, false, false, false⟩ 0 "a@x.com" "pw" "ip").2 =
      ⟨[], [], [⟨"a@x.com", "ip", 0, false⟩], false, false, true, false, false, false⟩ ∧
    (login (fun _ => true) (fun _ _ => false) "k" 3600
      ⟨[⟨"id1", "a@x.com", "h", "Alice", 0, 0, true, false⟩], [], [],
        false, false, false, false, false, false⟩ 0 "a@x.com" "pw" "ip").2 =
      ⟨[⟨"id1", "a@x.com", "h", "Alice", 0, 0, true, false⟩], [],
        [⟨"a@x.com", "ip", 0, false⟩], false, false, false, false, false, false⟩ ∧
    (login (fun _ => true) (fun _ _ => true) "k" 3600
      ⟨[⟨"id1", "a@x.com", "h", "Alice", 0, 0, true, false⟩], [], [],
        false, false, false, false, false, false⟩ 0 "a@x.com" "pw" "ip").2 =
      ⟨[⟨"id1", "a@x.com", "h", "Alice", 0, 0, true, false⟩], [],
        [⟨"a@x.com", "ip", 0, true⟩], false, false, false, false, false, false⟩ ∧
    (login (fun _ => true) (fun _ _ => true) "k" 3600
      ⟨[], [],
        [⟨"a@x.com", "ip", 100, false⟩, ⟨"a@x.com", "ip", 99, false⟩,
         ⟨"a@x.com", "ip", 98, false⟩, ⟨"a@x.com", "ip", 97, false⟩,
         ⟨"a@x.com", "ip", 96, false⟩],
        false, false, false, false, false, false⟩ 100 "a@x.com" "pw" "ip").2 =
      ⟨[], [],
        [⟨"a@x.com", "ip", 100, false⟩, ⟨"a@x.com", "ip", 99, false⟩,
         ⟨"a@x.com", "ip", 98, false⟩, ⟨"a@x.com", "ip", 97, false⟩,
         ⟨"a@x.com", "ip", 96, false⟩],
        false, false, false, false, false, false⟩ ∧
    (login (fun _ => true) (fun _ _ => true) "k" 3600
      ⟨[⟨"id1", "a@x.com", "h", "Alice", 0, 0, false, false⟩], [], [],
        false, false, false, false, false, false⟩ 0 "a@x.com" "pw" "ip").2 =
      ⟨[⟨"id1", "a@x.com", "h", "Alice", 0, 0, false, false⟩], [], [],
        false, false, false, false, false, false⟩ := by
  refine ⟨?_, ?_, ?_, ?_, ?_, ?_⟩
  · exact (c8_attempt_recording_paths.1 (fun _ => true) (fun _ _ => false) "k" 3600
      ⟨[], [], [], false, false, false, false, false, false⟩ 0 "a@x.com" "pw" "ip"
      rfl (by decide) rfl (by decide) rfl (by decide)).trans (by decide)
  · exact (c8_attempt_recording_paths.2.1 (fun _ => true) (fun _ _ => false) "k" 3600
      ⟨[], [], [], false, false, true, false, false, false⟩ 0 "a@x.com" "pw" "ip"
      rfl (by decide) rfl (by decide) rfl (by decide)).trans (by decide)
  · exact (c8_attempt_recording_paths.2.2.1 (fun _ => true) (fun _ _ => false) "k" 3600
      ⟨[⟨"id1", "a@x.com", "h", "Alice", 0, 0, true, false⟩], [], [],
        false, false, false, false, false, false⟩ 0 "a@x.com" "pw" "ip"
      ⟨"id1", "a@x.com", "h", "Alice", 0, 0, true, false⟩
      rfl (by decide) rfl (by decide) rfl (by decide) rfl).trans (by decide)
  · exact (c8_attempt_recording_paths.2.2.2.1 (fun _ => true) (fun _ _ => true) "k" 3600
      ⟨[⟨"id1", "a@x.com", "h", "Alice", 0, 0, true, false⟩], [], [],
        false, false, false, false, false, false⟩ 0 "a@x.com" "pw" "ip"
      ⟨"id1", "a@x.com", "h", "Alice", 0, 0, true, false⟩
      rfl (by decide) rfl (by decide) rfl (by decide) rfl rfl).trans (by decide)
  · exact c8_attempt_recording_paths.2.2.2.2.1 (fun _ => true) (fun _ _ => true) "k" 3600
      ⟨[], [],
        [⟨"a@x.com", "ip", 100, false⟩, ⟨"a@x.com", "ip", 99, false⟩,
         ⟨"a@x.com", "ip", 98, false⟩, ⟨"a@x.com", "ip", 97, false⟩,
         ⟨"a@x.com", "ip", 96, false⟩],
        false, false, false, false, false, false⟩ 100 "a@x.com" "pw" "ip"
      rfl (by decide) rfl (by decide)
  · exact c8_attempt_recording_paths.2.2.2.2.2 (fun _ => true) (fun _ _ => true) "k" 3600
      ⟨[⟨"id1", "a@x.com", "h", "Alice", 0, 0, false, false⟩], [], [],
        false, false, false, false, false, false⟩ 0 "a@x.com" "pw" "ip"
      ⟨"id1", "a@x.com", "h", "Alice", 0, 0, false, false⟩
      rfl (by decide) rfl (by decide) (by decide) rfl rfl

/-- **C9 counterexample.** The claim that callers surface the blacklist
store-lookup failure as an Internal-class error is false: with the blacklist
lookup failing, `Logout` of a cryptographically valid token returns
`Unauthenticated "invalid token"` — an authentication failure, not
`Internal`. -/
theorem c9_counterexample :
    logout "k" 86400 ⟨[], [], [], true, false, false, false, false, false⟩ 0
      (Token.jwtTok ⟨"u", "e", 100, 0, 0, "u"⟩ .HS256 "k") =
      (.error ⟨.unauthenticated, "invalid token"⟩,
       ⟨[], [], [], true, false, false, false, false, false⟩) ∧
    GrpcCode.unauthenticated ≠ GrpcCode.internal := by
  decide

/-- **C9 (amended).** When the revocation-store lookup fails with an error
other than "not found", `ValidateToken` returns the wrapped internal lookup
error, which is distinct from the blacklisted / expired / invalid kinds;
the `Logout` caller, however, surfaces it as `Unauthenticated "invalid
token"` — the same as any authentication failure — not as `Internal`. -/
theorem c9_store_error_distinct_but_surfaced_as_unauthenticated
    (secret : String) (ttl : Int) (db : DBState) (now : Int) (t : Token)
    (h : db.tokensFindFails = true) :
    validateToken secret db now t = .error .blacklistCheckFailure ∧
    (Except.error ValidateErr.blacklistCheckFailure : Except ValidateErr JWTClaims) ≠
      .error .tokenBlacklisted ∧
    (Except.error ValidateErr.blacklistCheckFailure : Except ValidateErr JWTClaims) ≠
      .error .tokenExpired ∧
    (Except.error ValidateErr.blacklistCheckFailure : Except ValidateErr JWTClaims) ≠
      .error .invalidToken ∧
    (t ≠ .garbage "" →
      logout secret ttl db now t = (.error ⟨.unauthenticated, "invalid token"⟩, db)) := by
  refine ⟨by simp [validateToken, h], by simp, by simp, by simp, ?_⟩
  intro ht
  simp [logout, ht, extractUserIDFromToken, validateToken, h, Except.map]

/-- Witness for the amended C9 at concrete inputs. -/
theorem c9_store_error_distinct_witness :
    validateToken "k" ⟨[], [], [], true, false, false, false, false, false⟩ 0
      (Token.garbage "x") = .error .blacklistCheckFailure ∧
    logout "k" 86400 ⟨[], [], [], true, false, false, false, false, false⟩ 0
      (Token.garbage "x") =
      (.error ⟨.unauthenticated, "invalid token"⟩,
       ⟨[], [], [], true, false, false, false, false, false⟩) :=
  ⟨(c9_store_error_distinct_but_surfaced_as_unauthenticated "k" 86400
      ⟨[], [], [], true, false, false, false, false, false⟩ 0 (Token.garbage "x") rfl).1,
   (c9_store_error_distinct_but_surfaced_as_unauthenticated "k" 86400
      ⟨[], [], [], true, false, false, false, false, false⟩ 0 (Token.garbage "x") rfl).2.2.2.2
      (by decide)⟩

/-- **C10.** `Register`'s duplicate check matches credentials regardless of
the deleted flag: with the store holding exactly one credential for the
email and that credential soft-deleted, `Register` fails with
`AlreadyExists` while `Login` for the same email treats the account as
nonexistent (its lookup filters `is_deleted = false`) and fails with the
"invalid email or password" `NotFound` error. -/
theorem c10_deleted_credential_blocks_register (emailOK : String → Bool)
    (pwVerify : String → String → Bool) (hash : String → String)
    (newID secret : String) (ttl : Int) (u : User) (db : DBState) (now : Int)
    (email password name ip : String)
    (husers : db.users = [u]) (hmail : u.email = email) (hdel : u.isDeleted = true)
    (htrimE : sanitizeString email = email) (htrimN : sanitizeString name = name)
    (hemail : validateEmail emailOK email = none)
    (hpass : validatePassword password = none)
    (hname : validateName name "name" = none)
    (hff : db.usersFindFails = false)
    (hpw : password ≠ "")
    (hcount : db.attemptsCountFails = false)
    (hlim : failedRecentCount db now email ip < 5) :
    (register emailOK hash newID db now email password name).1 =
      .error ⟨.alreadyExists, "email already exists"⟩ ∧
    (login emailOK pwVerify secret ttl db now email password ip).1 =
      .error ⟨.notFound, "invalid email or password"⟩ := by
  constructor
  · simp [register, htrimE, htrimN, hemail, hpass, hname, hff, husers, hmail, List.find?]
  · have hfind : usersFindOneLogin db email = .noDocuments := by
      simp [usersFindOneLogin, hff, husers, hdel, List.find?]
    simp [login, hemail, hpw, checkRateLimit, hcount, hlim, hfind]

/-- Witness for C10 at concrete inputs: a soft-deleted account for the
registered email. -/
theorem c10_deleted_credential_blocks_register_witness :
    (register (fun _ => true) (fun s => s) "0123456789abcdef01234567"
      ⟨[⟨"id1", "a@x.com", "h", "Bob", 0, 0, false, true⟩], [], [],
        false, false, false, false, false, false⟩ 0 "a@x.com" "Str0ng!Pass" "Bob").1 =
      .error ⟨.alreadyExists, "email already exists"⟩ ∧
    (login (fun _ => true) (fun _ _ => true) "k" 3600
      ⟨[⟨"id1", "a@x.com", "h", "Bob", 0, 0, false, true⟩], [], [],
        false, false, false, false, false, false⟩ 0 "a@x.com" "Str0ng!Pass" "ip").1 =
      .error ⟨.notFound, "invalid email or password"⟩ :=
  c10_deleted_credential_blocks_register (fun _ => true) (fun _ _ => true) (fun s => s)
    "0123456789abcdef01234567" "k" 3600
    ⟨"id1", "a@x.com", "h", "Bob", 0, 0, false, true⟩
    ⟨[⟨"id1", "a@x.com", "h", "Bob", 0, 0, false, true⟩], [], [],
      false, false, false, false, false, false⟩ 0 "a@x.com" "Str0ng!Pass" "Bob" "ip"
    rfl rfl rfl (by decide) (by decide) rfl (by decide) (by decide) rfl (by decide) rfl
    (by decide)
